import Mathlib

/-!
# Robojail: verification of the sandbox and registry subsystem

A shallow embedding of the robojail implementation (Rust sources under
`src/`): jail-name validation, namespace setup, mount primitives,
`pivot_root`, the sandbox driver (fork / wait / environment seeding), the
sandbox builder, and the JSON registry record.

Syscall-effecting functions are embedded as pure functions that take an
explicit environment describing the outcome of each system call they make
and return, besides the `Except` result of the original function, the trace
of system events they attempted, so that ordering claims can be stated as
equalities of traces.
-/

set_option autoImplicit false

namespace Robojail

/-- Errno values distinguished by the code, plus a catch-all; embeds
`nix::Error` (which is an errno wrapper). -/
inductive Errno where
  | EPERM
  | EINTR
  | ENOENT
  | EBUSY
  | EINVAL
  | EACCES
  | other (code : Nat)
deriving DecidableEq, Repr

/-- Abstracts the `Display` rendering of `nix::Error` used by the Rust code
in `format!` messages. -/
def Errno.display : Errno → String
  | .EPERM => "EPERM"
  | .EINTR => "EINTR"
  | .ENOENT => "ENOENT"
  | .EBUSY => "EBUSY"
  | .EINVAL => "EINVAL"
  | .EACCES => "EACCES"
  | .other code => "errno " ++ toString code

/-- The error taxonomy of `src/error.rs` (the constructors the verified
claims exercise). -/
inductive Error where
  | JailNotFound (name : String)
  | JailExists (name : String)
  | JailRunning (name : String)
  | InvalidJailName (name : String)
  | NamespacesUnavailable
  | SandboxSetup (msg : String)
  | MountFailed (path : String) (reason : String)
  | StateCorrupted (msg : String)
  | Io (e : Errno)
  | Nix (e : Errno)
deriving DecidableEq, Repr

/-- The `thiserror`-derived `Display` of `Error` (`src/error.rs`), used when
the child prints a diagnostic before exiting. -/
def Error.display : Error → String
  | .JailNotFound name => "jail '" ++ name ++ "' not found"
  | .JailExists name => "jail '" ++ name ++ "' already exists"
  | .JailRunning name => "jail '" ++ name ++ "' is currently running (use --force to destroy)"
  | .InvalidJailName name =>
      "invalid jail name '" ++ name ++ "': must be 1-64 alphanumeric characters, dashes, or underscores"
  | .NamespacesUnavailable =>
      "user namespaces are not available on this system\nhint: check that /proc/sys/kernel/unprivileged_userns_clone is set to 1"
  | .SandboxSetup msg => "sandbox setup failed: " ++ msg
  | .MountFailed path reason => "mount failed for " ++ path ++ ": " ++ reason
  | .StateCorrupted msg => "state file corrupted: " ++ msg
  | .Io e => "io error: " ++ e.display
  | .Nix e => "system error: " ++ e.display

/-! ## Jail-name validation (`src/validation.rs`)

Rust `&str` values are embedded as `List Char`; `str::len` counts UTF-8
bytes, embedded by `utf8Len`. -/

/-- `char::is_ascii_alphanumeric`. -/
def is_ascii_alphanumeric (c : Char) : Bool :=
  (65 ≤ c.toNat && c.toNat ≤ 90) || (97 ≤ c.toNat && c.toNat ≤ 122) ||
    (48 ≤ c.toNat && c.toNat ≤ 57)

/-- Number of bytes of the UTF-8 encoding of one scalar value. -/
def utf8CharLen (c : Char) : Nat :=
  if c.toNat < 0x80 then 1
  else if c.toNat < 0x800 then 2
  else if c.toNat < 0x10000 then 3
  else 4

/-- `str::len`: the UTF-8 byte length. -/
def utf8Len (s : List Char) : Nat :=
  (s.map utf8CharLen).sum

/-- The character set accepted by the loop in `validate_jail_name`:
alphanumeric, dash, or underscore. -/
def jailNameChar (c : Char) : Bool :=
  is_ascii_alphanumeric c || c == '-' || c == '_'

/-- `str::starts_with(char)`. -/
def startsWithChar (s : List Char) (c : Char) : Bool :=
  match s with
  | [] => false
  | d :: _ => d == c

/-- `validate_jail_name` (`src/validation.rs` lines 5-22). -/
def validate_jail_name (name : List Char) : Except Error Unit :=
  if name.isEmpty || decide (utf8Len name > 64) then
    .error (.InvalidJailName (String.mk name))
  else if !(name.all jailNameChar) then
    .error (.InvalidJailName (String.mk name))
  else if startsWithChar name '-' then
    .error (.InvalidJailName (String.mk name))
  else
    .ok ()

/-- Modelled from the spec's words: the character class `[A-Za-z0-9_]` of
the first regex position. -/
def regexFirstClass (c : Char) : Bool :=
  is_ascii_alphanumeric c || c == '_'

/-- Modelled from the spec's words: the character class `[A-Za-z0-9_-]` of
the remaining regex positions. -/
def regexRestClass (c : Char) : Bool :=
  is_ascii_alphanumeric c || c == '_' || c == '-'

/-- Modelled from the spec's words: full-string match of the regular
expression `[A-Za-z0-9_][A-Za-z0-9_-]{0,63}`. -/
def jailNameRegexMatch (name : List Char) : Bool :=
  match name with
  | [] => false
  | c :: rest => regexFirstClass c && decide (rest.length ≤ 63) && rest.all regexRestClass

theorem jailNameChar_eq_regexRestClass (c : Char) :
    jailNameChar c = regexRestClass c := by
  unfold jailNameChar regexRestClass
  cases h1 : is_ascii_alphanumeric c <;> cases h2 : (c == '-') <;> cases h3 : (c == '_') <;> simp

theorem utf8CharLen_eq_one_of_jailNameChar {c : Char} (h : jailNameChar c = true) :
    utf8CharLen c = 1 := by
  unfold jailNameChar is_ascii_alphanumeric at h
  unfold utf8CharLen
  have hd : c = '-' ∨ c = '_' ∨ (65 ≤ c.toNat ∧ c.toNat ≤ 90) ∨ (97 ≤ c.toNat ∧ c.toNat ≤ 122) ∨
      (48 ≤ c.toNat ∧ c.toNat ≤ 57) := by
    simp only [Bool.or_eq_true, beq_iff_eq, decide_eq_true_eq, Bool.and_eq_true] at h
    tauto
  rcases hd with h | h | h | h | h
  · subst h; rfl
  · subst h; rfl
  all_goals
    rw [if_pos (by omega)]

theorem utf8Len_eq_length_of_all {l : List Char} (h : ∀ c ∈ l, jailNameChar c = true) :
    utf8Len l = l.length := by
  induction l with
  | nil => rfl
  | cons c rest ih =>
      have hc := utf8CharLen_eq_one_of_jailNameChar (h c (by simp))
      have := ih (fun d hd => h d (by simp [hd]))
      simp [utf8Len, List.map_cons, List.sum_cons] at this ⊢
      omega

theorem length_le_utf8Len (l : List Char) : l.length ≤ utf8Len l := by
  induction l with
  | nil => simp [utf8Len]
  | cons c rest ih =>
      have : 1 ≤ utf8CharLen c := by
        unfold utf8CharLen
        split <;> [omega; split] <;> [omega; split] <;> omega
      simp [utf8Len, List.map_cons, List.sum_cons] at ih ⊢
      omega

/-- Unfolding of `validate_jail_name` into its three checks. -/
theorem validate_jail_name_isOk_iff (name : List Char) :
    (validate_jail_name name).isOk = true ↔
      (name.isEmpty = false ∧ utf8Len name ≤ 64 ∧ name.all jailNameChar = true ∧
        startsWithChar name '-' = false) := by
  unfold validate_jail_name
  split
  · next h =>
      simp only [Bool.or_eq_true, decide_eq_true_eq] at h
      constructor
      · intro hk; simp [Except.isOk, Except.toBool] at hk
      · rintro ⟨h1, h2, _, _⟩
        rcases h with h | h
        · rw [h1] at h; cases h
        · omega
  · next h =>
      simp only [Bool.or_eq_true, decide_eq_true_eq, not_or] at h
      split
      · next h2 =>
          simp only [Bool.not_eq_true'] at h2
          constructor
          · intro hk; simp [Except.isOk, Except.toBool] at hk
          · rintro ⟨_, _, h3, _⟩; rw [h2] at h3; cases h3
      · next h2 =>
          simp only [Bool.not_eq_true', Bool.not_eq_false] at h2
          split
          · next h3 =>
              constructor
              · intro hk; simp [Except.isOk, Except.toBool] at hk
              · rintro ⟨_, _, _, h4⟩; rw [h3] at h4; cases h4
          · next h3 =>
              simp only [Bool.not_eq_true] at h3
              constructor
              · intro _
                refine ⟨?_, ?_, h2, h3⟩
                · cases name with
                  | nil => exact absurd rfl (by push_neg at h; exact fun hh => (h.1 hh).elim)
                  | cons c rest => rfl
                · omega
              · intro _; rfl

theorem regexFirstClass_iff (c : Char) :
    regexFirstClass c = true ↔ (jailNameChar c = true ∧ c ≠ '-') := by
  unfold regexFirstClass jailNameChar
  by_cases hd : c = '-'
  · subst hd; decide
  · have hb : (c == '-') = false := by simp [hd]
    rw [hb]
    simp [hd]

theorem validate_accepts_iff_regex (n : List Char) :
    (validate_jail_name n).isOk = true ↔ jailNameRegexMatch n = true := by
  rw [validate_jail_name_isOk_iff]
  cases n with
  | nil => simp [jailNameRegexMatch]
  | cons c rest =>
      simp only [jailNameRegexMatch, List.isEmpty_cons, startsWithChar, Bool.and_eq_true,
        decide_eq_true_eq, List.all_cons, beq_eq_false_iff_ne]
      constructor
      · rintro ⟨-, hlen, ⟨hc, hrest⟩, hdash⟩
        have hall : ∀ d ∈ (c :: rest), jailNameChar d = true := by
          rw [← List.all_eq_true]; simp [hc, hrest]
        have heq := utf8Len_eq_length_of_all hall
        refine ⟨⟨(regexFirstClass_iff c).2 ⟨hc, hdash⟩, ?_⟩, ?_⟩
        · rw [heq] at hlen; simp at hlen; omega
        · rw [List.all_eq_true] at hrest ⊢
          intro d hd
          rw [← jailNameChar_eq_regexRestClass]
          exact hrest d hd
      · rintro ⟨⟨hfirst, hlen⟩, hrest⟩
        obtain ⟨hc, hdash⟩ := (regexFirstClass_iff c).1 hfirst
        have hrest' : rest.all jailNameChar = true := by
          rw [List.all_eq_true] at hrest ⊢
          intro d hd
          rw [jailNameChar_eq_regexRestClass]
          exact hrest d hd
        have hall : ∀ d ∈ (c :: rest), jailNameChar d = true := by
          rw [← List.all_eq_true]; simp [hc, hrest']
        have heq := utf8Len_eq_length_of_all hall
        refine ⟨trivial, ?_, ⟨hc, hrest'⟩, hdash⟩
        rw [heq]; simp; omega

/-- C3: `validate_jail_name n` accepts iff `n` matches the regular
expression `[A-Za-z0-9_][A-Za-z0-9_-]{0,63}`; the empty string, any
65-character name, any name beginning with a dash, and any name containing
a space, dot, or slash are rejected, while a 64-character name of allowed
characters is accepted. -/
theorem validate_jail_name_matches_regex_spec :
    (∀ n : List Char, (validate_jail_name n).isOk = true ↔ jailNameRegexMatch n = true)
    ∧ (validate_jail_name []).isOk = false
    ∧ (∀ n : List Char, n.length = 65 → (validate_jail_name n).isOk = false)
    ∧ (∀ n : List Char, (validate_jail_name ('-' :: n)).isOk = false)
    ∧ (∀ (n : List Char) (c : Char), c ∈ n → (c = ' ' ∨ c = '.' ∨ c = '/') →
        (validate_jail_name n).isOk = false)
    ∧ (∀ (c : Char) (n : List Char), (c :: n).length = 64 → regexFirstClass c = true →
        (∀ d ∈ n, regexRestClass d = true) → (validate_jail_name (c :: n)).isOk = true) := by
  refine ⟨validate_accepts_iff_regex, rfl, ?_, ?_, ?_, ?_⟩
  · intro n h
    rw [Bool.eq_false_iff]
    intro hk
    have h2 := ((validate_jail_name_isOk_iff n).1 hk).2.1
    have h3 := length_le_utf8Len n
    omega
  · intro n
    rw [Bool.eq_false_iff]
    intro hk
    have h4 := ((validate_jail_name_isOk_iff _).1 hk).2.2.2
    simp [startsWithChar] at h4
  · intro n c hmem hcs
    rw [Bool.eq_false_iff]
    intro hk
    have hall := ((validate_jail_name_isOk_iff n).1 hk).2.2.1
    rw [List.all_eq_true] at hall
    have hc := hall c hmem
    rcases hcs with rfl | rfl | rfl <;> exact absurd hc (by decide)
  · intro c n hlen hfirst hrest
    rw [validate_accepts_iff_regex]
    simp only [jailNameRegexMatch, Bool.and_eq_true, decide_eq_true_eq]
    simp only [List.length_cons] at hlen
    exact ⟨⟨hfirst, by omega⟩, List.all_eq_true.mpr hrest⟩

theorem validate_jail_name_matches_regex_spec_witness :
    (validate_jail_name (List.replicate 65 'a')).isOk = false
    ∧ (validate_jail_name ('a' :: List.replicate 63 'b')).isOk = true
    ∧ (validate_jail_name ['h', 'i', ' ']).isOk = false :=
  ⟨validate_jail_name_matches_regex_spec.2.2.1 _ (by simp),
   validate_jail_name_matches_regex_spec.2.2.2.2.2 'a' (List.replicate 63 'b') (by simp)
     (by decide) (fun d hd => by rw [List.eq_of_mem_replicate hd]; decide),
   validate_jail_name_matches_regex_spec.2.2.2.2.1 _ ' ' (by simp) (Or.inl rfl)⟩

/-! ## Namespace setup (`src/sandbox/namespace.rs`)

Each function takes an environment recording the outcome of every system
call it may make (`none` = success, `some e` = failure with errno `e`) and
returns the original function's result together with the trace of attempted
system events. -/

/-- The `CloneFlags` bits used by the code. -/
inductive CloneFlag where
  | NEWUSER
  | NEWNS
  | NEWIPC
  | NEWUTS
  | NEWNET
deriving DecidableEq, Repr

/-- The `MsFlags` mount bits used by the code. -/
inductive MsFlag where
  | BIND
  | REC
  | RDONLY
  | REMOUNT
  | NOSUID
  | NODEV
  | NOEXEC
  | PRIVATE
deriving DecidableEq, Repr

/-- The `MntFlags` unmount bits used by the code. -/
inductive MntFlag where
  | DETACH
deriving DecidableEq, Repr

/-- One attempted system operation, recorded in order of attempt. -/
inductive SysEvent where
  | getuid (uid : Nat)
  | getgid (gid : Nat)
  | unshareCall (flags : List CloneFlag)
  | openProcFile (path : String)
  | writeProcFile (path : String) (content : String)
  | sethostnameCall (name : String)
  | mountCall (source : Option String) (target : String) (fstype : Option String)
      (flags : List MsFlag) (data : Option String)
  | umountCall (target : String) (flags : List MntFlag)
  | chdirCall (path : String)
  | pivotCall (newRoot : String) (putOld : String)
  | mkdirCall (path : String)
  | rmdirCall (path : String)
  | forkCall
deriving DecidableEq, Repr

/-- Outcomes of the open and write performed by `write_to_proc_file`. -/
structure ProcWriteEnv where
  openRes : Option Errno
  writeRes : Option Errno
deriving DecidableEq, Repr

/-- `write_to_proc_file` (`src/sandbox/namespace.rs` lines 72-82). -/
def write_to_proc_file (env : ProcWriteEnv) (path content : String) :
    Except Error Unit × List SysEvent :=
  match env.openRes with
  | some e =>
      (.error (.SandboxSetup ("failed to open " ++ path ++ ": " ++ e.display)),
        [.openProcFile path])
  | none =>
      match env.writeRes with
      | some e =>
          (.error (.SandboxSetup ("failed to write to " ++ path ++ ": " ++ e.display)),
            [.openProcFile path, .writeProcFile path content])
      | none => (.ok (), [.openProcFile path, .writeProcFile path content])

/-- Syscall outcomes for one run of `setup_user_namespace`, together with the
uid/gid that `getuid`/`getgid` report. -/
structure UserNsEnv where
  uid : Nat
  gid : Nat
  unshareRes : Option Errno
  uidMapWrite : ProcWriteEnv
  setgroupsWrite : ProcWriteEnv
  gidMapWrite : ProcWriteEnv
deriving DecidableEq, Repr

/-- `setup_user_namespace` (`src/sandbox/namespace.rs` lines 16-43). -/
def setup_user_namespace (env : UserNsEnv) : Except Error Unit × List SysEvent :=
  let pre := [SysEvent.getuid env.uid, SysEvent.getgid env.gid,
    SysEvent.unshareCall [CloneFlag.NEWUSER]]
  match env.unshareRes with
  | some e =>
      (if e = .EPERM then .error .NamespacesUnavailable
       else .error (.SandboxSetup ("failed to create user namespace: " ++ e.display)), pre)
  | none =>
      match write_to_proc_file env.uidMapWrite "/proc/self/uid_map"
          ("0 " ++ toString env.uid ++ " 1") with
      | (.error er, tr) => (.error er, pre ++ tr)
      | (.ok _, tr1) =>
          match write_to_proc_file env.setgroupsWrite "/proc/self/setgroups" "deny" with
          | (.error er, tr) => (.error er, pre ++ tr1 ++ tr)
          | (.ok _, tr2) =>
              match write_to_proc_file env.gidMapWrite "/proc/self/gid_map"
                  ("0 " ++ toString env.gid ++ " 1") with
              | (.error er, tr) => (.error er, pre ++ tr1 ++ tr2 ++ tr)
              | (.ok _, tr3) => (.ok (), pre ++ tr1 ++ tr2 ++ tr3)

/-- The flags passed to the combined unshare of `setup_other_namespaces`. -/
def otherNsFlags (share_net : Bool) : List CloneFlag :=
  [CloneFlag.NEWNS, CloneFlag.NEWIPC, CloneFlag.NEWUTS] ++
    (if share_net then [] else [CloneFlag.NEWNET])

/-- Syscall outcomes for one run of `setup_other_namespaces`. -/
structure OtherNsEnv where
  unshareRes : Option Errno
  sethostnameRes : Option Errno
deriving DecidableEq, Repr

/-- `setup_other_namespaces` (`src/sandbox/namespace.rs` lines 52-69); the
`sethostname` failure is ignored by the code (`.ok()`). -/
def setup_other_namespaces (share_net : Bool) (env : OtherNsEnv) :
    Except Error Unit × List SysEvent :=
  match env.unshareRes with
  | some e =>
      (.error (.SandboxSetup ("failed to create namespaces: " ++ e.display)),
        [.unshareCall (otherNsFlags share_net)])
  | none =>
      (.ok (), [.unshareCall (otherNsFlags share_net), .sethostnameCall "robojail"])

/-- C1 counterexample: in `setup_other_namespaces`, an unshare failure with
EPERM is mapped to the generic sandbox-setup error, not to the distinct
namespaces-unavailable error. -/
theorem other_namespaces_eperm_counterexample :
    (setup_other_namespaces true ⟨some Errno.EPERM, none⟩).1
      = Except.error (Error.SandboxSetup "failed to create namespaces: EPERM")
    ∧ Error.SandboxSetup "failed to create namespaces: EPERM" ≠ Error.NamespacesUnavailable :=
  ⟨rfl, fun h => Error.noConfusion h⟩

/-- C1 (amended): `setup_user_namespace` maps an EPERM unshare failure to the
distinct namespaces-unavailable error and any other errno to a generic
sandbox-setup error; `setup_other_namespaces` maps every unshare failure,
EPERM included, to a generic sandbox-setup error. -/
theorem unshare_eperm_error_mapping (env : UserNsEnv) (env2 : OtherNsEnv) (sn : Bool)
    (e : Errno) :
    (env.unshareRes = some Errno.EPERM →
      (setup_user_namespace env).1 = .error .NamespacesUnavailable)
    ∧ (env.unshareRes = some e → e ≠ Errno.EPERM →
      (setup_user_namespace env).1 =
        .error (.SandboxSetup ("failed to create user namespace: " ++ e.display)))
    ∧ (env2.unshareRes = some e →
      (setup_other_namespaces sn env2).1 =
        .error (.SandboxSetup ("failed to create namespaces: " ++ e.display))) := by
  refine ⟨fun h => ?_, fun h hne => ?_, fun h => ?_⟩
  · simp [setup_user_namespace, h]
  · simp [setup_user_namespace, h, hne]
  · simp [setup_other_namespaces, h]

theorem unshare_eperm_error_mapping_witness :
    (setup_user_namespace ⟨1000, 1000, some Errno.EPERM, ⟨none, none⟩, ⟨none, none⟩,
        ⟨none, none⟩⟩).1 = .error .NamespacesUnavailable
    ∧ (setup_other_namespaces true ⟨some Errno.EACCES, none⟩).1
      = .error (.SandboxSetup ("failed to create namespaces: " ++ Errno.EACCES.display)) :=
  ⟨(unshare_eperm_error_mapping ⟨1000, 1000, some Errno.EPERM, ⟨none, none⟩, ⟨none, none⟩,
      ⟨none, none⟩⟩ ⟨some Errno.EACCES, none⟩ true Errno.EACCES).1 rfl,
   (unshare_eperm_error_mapping ⟨1000, 1000, some Errno.EPERM, ⟨none, none⟩, ⟨none, none⟩,
      ⟨none, none⟩⟩ ⟨some Errno.EACCES, none⟩ true Errno.EACCES).2.2 rfl⟩

/-- C4: on every successful run of `setup_user_namespace` the uid and gid
are read before the unshare, and the proc-file writes afterwards occur in
exactly the order uid_map (`0 <uid> 1`), setgroups (`deny`), gid_map
(`0 <gid> 1`), with no mount or other namespace operation in between (the
trace is exactly this sequence). -/
theorem user_namespace_setup_order (env : UserNsEnv)
    (h1 : env.unshareRes = none) (h2 : env.uidMapWrite = ⟨none, none⟩)
    (h3 : env.setgroupsWrite = ⟨none, none⟩) (h4 : env.gidMapWrite = ⟨none, none⟩) :
    setup_user_namespace env =
      (.ok (), [.getuid env.uid, .getgid env.gid, .unshareCall [CloneFlag.NEWUSER],
        .openProcFile "/proc/self/uid_map",
        .writeProcFile "/proc/self/uid_map" ("0 " ++ toString env.uid ++ " 1"),
        .openProcFile "/proc/self/setgroups",
        .writeProcFile "/proc/self/setgroups" "deny",
        .openProcFile "/proc/self/gid_map",
        .writeProcFile "/proc/self/gid_map" ("0 " ++ toString env.gid ++ " 1")]) := by
  simp [setup_user_namespace, write_to_proc_file, h1, h2, h3, h4]

theorem user_namespace_setup_order_witness :
    setup_user_namespace ⟨1000, 1000, none, ⟨none, none⟩, ⟨none, none⟩, ⟨none, none⟩⟩ =
      (.ok (), [.getuid 1000, .getgid 1000, .unshareCall [CloneFlag.NEWUSER],
        .openProcFile "/proc/self/uid_map",
        .writeProcFile "/proc/self/uid_map" "0 1000 1",
        .openProcFile "/proc/self/setgroups",
        .writeProcFile "/proc/self/setgroups" "deny",
        .openProcFile "/proc/self/gid_map",
        .writeProcFile "/proc/self/gid_map" "0 1000 1"]) :=
  user_namespace_setup_order ⟨1000, 1000, none, ⟨none, none⟩, ⟨none, none⟩, ⟨none, none⟩⟩
    rfl rfl rfl rfl

/-! ## Mount primitives (`src/sandbox/mount.rs`) -/

/-- Outcomes of the two mount calls `bind_mount` may make. -/
structure BindEnv where
  bindRes : Option Errno
  remountRes : Option Errno
deriving DecidableEq, Repr

/-- The initial recursive bind mount event of `bind_mount`. -/
def bindMountEvent (source target : String) : SysEvent :=
  .mountCall (some source) target none [MsFlag.BIND, MsFlag.REC] none

/-- The read-only remount event of `bind_mount`. -/
def remountRdonlyEvent (target : String) : SysEvent :=
  .mountCall none target none [MsFlag.BIND, MsFlag.REMOUNT, MsFlag.RDONLY, MsFlag.REC] none

/-- `bind_mount` (`src/sandbox/mount.rs` lines 45-75). -/
def bind_mount (source target : String) (readonly : Bool) (env : BindEnv) :
    Except Error Unit × List SysEvent :=
  match env.bindRes with
  | some e =>
      (.error (.MountFailed target ("bind mount failed: " ++ e.display)),
        [bindMountEvent source target])
  | none =>
      if readonly then
        match env.remountRes with
        | some e =>
            (.error (.MountFailed target ("failed to make mount read-only: " ++ e.display)),
              [bindMountEvent source target, remountRdonlyEvent target])
        | none => (.ok (), [bindMountEvent source target, remountRdonlyEvent target])
      else
        (.ok (), [bindMountEvent source target])

/-- C5: with readonly=true, `bind_mount` performs the recursive bind first
and then the `MS_REMOUNT|MS_BIND|MS_RDONLY|MS_REC` remount; it succeeds iff
the remount succeeded, a remount failure yields a mount-failed error
carrying the target path, and with readonly=false no remount is
performed. -/
theorem bind_mount_readonly_two_step (source target : String) (env : BindEnv) (e : Errno)
    (hbind : env.bindRes = none) :
    ((bind_mount source target true env).2 =
        [bindMountEvent source target, remountRdonlyEvent target])
    ∧ ((bind_mount source target true env).1 = .ok () ↔ env.remountRes = none)
    ∧ (env.remountRes = some e →
        (bind_mount source target true env).1 =
          .error (.MountFailed target ("failed to make mount read-only: " ++ e.display)))
    ∧ ((bind_mount source target false env).2 = [bindMountEvent source target]) := by
  refine ⟨?_, ?_, fun h => ?_, ?_⟩
  · cases h : env.remountRes <;> simp [bind_mount, hbind, h]
  · cases h : env.remountRes <;> simp [bind_mount, hbind, h]
  · simp [bind_mount, hbind, h]
  · simp [bind_mount, hbind]

theorem bind_mount_readonly_two_step_witness :
    ((bind_mount "/usr" "/tmp/robojail-root/usr" true ⟨none, some Errno.EBUSY⟩).2 =
        [bindMountEvent "/usr" "/tmp/robojail-root/usr",
          remountRdonlyEvent "/tmp/robojail-root/usr"])
    ∧ ((bind_mount "/usr" "/tmp/robojail-root/usr" true ⟨none, some Errno.EBUSY⟩).1 = .ok ()
        ↔ (⟨none, some Errno.EBUSY⟩ : BindEnv).remountRes = none)
    ∧ ((⟨none, some Errno.EBUSY⟩ : BindEnv).remountRes = some Errno.EBUSY →
        (bind_mount "/usr" "/tmp/robojail-root/usr" true ⟨none, some Errno.EBUSY⟩).1 =
          .error (.MountFailed "/tmp/robojail-root/usr"
            ("failed to make mount read-only: " ++ Errno.EBUSY.display)))
    ∧ ((bind_mount "/usr" "/tmp/robojail-root/usr" false ⟨none, some Errno.EBUSY⟩).2 =
        [bindMountEvent "/usr" "/tmp/robojail-root/usr"]) :=
  bind_mount_readonly_two_step "/usr" "/tmp/robojail-root/usr" ⟨none, some Errno.EBUSY⟩
    Errno.EBUSY rfl

/-- Whether the `.old_root` directory entry still exists in the (new) root
after the call. -/
structure PivotState where
  oldRootDirExists : Bool
deriving DecidableEq, Repr

/-- Syscall outcomes for one run of `pivot_root`. -/
structure PivotEnv where
  chdirNewRes : Option Errno
  mkdirRes : Option Errno
  pivotRes : Option Errno
  chdirRootRes : Option Errno
  umountRes : Option Errno
  rmdirRes : Option Errno
deriving DecidableEq, Repr

/-- `pivot_root` (`src/sandbox/mount.rs` lines 166-195). The final
`fs::remove_dir` result is discarded by the code (`.ok()`), so a removal
failure still yields success with the directory left in place. -/
def pivot_root (new_root : String) (env : PivotEnv) :
    Except Error Unit × List SysEvent × PivotState :=
  let oldRoot := new_root ++ "/.old_root"
  match env.chdirNewRes with
  | some e =>
      (.error (.SandboxSetup ("failed to chdir to new root: " ++ e.display)),
        [.chdirCall new_root], ⟨false⟩)
  | none =>
  match env.mkdirRes with
  | some e => (.error (.Io e), [.chdirCall new_root, .mkdirCall oldRoot], ⟨false⟩)
  | none =>
  match env.pivotRes with
  | some e =>
      (.error (.SandboxSetup ("pivot_root failed: " ++ e.display)),
        [.chdirCall new_root, .mkdirCall oldRoot, .pivotCall new_root oldRoot], ⟨true⟩)
  | none =>
  match env.chdirRootRes with
  | some e =>
      (.error (.SandboxSetup ("failed to chdir to /: " ++ e.display)),
        [.chdirCall new_root, .mkdirCall oldRoot, .pivotCall new_root oldRoot,
          .chdirCall "/"], ⟨true⟩)
  | none =>
  match env.umountRes with
  | some e =>
      (.error (.SandboxSetup ("failed to unmount old root: " ++ e.display)),
        [.chdirCall new_root, .mkdirCall oldRoot, .pivotCall new_root oldRoot,
          .chdirCall "/", .umountCall "/.old_root" [MntFlag.DETACH]], ⟨true⟩)
  | none =>
      (.ok (),
        [.chdirCall new_root, .mkdirCall oldRoot, .pivotCall new_root oldRoot,
          .chdirCall "/", .umountCall "/.old_root" [MntFlag.DETACH],
          .rmdirCall "/.old_root"],
        ⟨env.rmdirRes.isSome⟩)

/-- C9 counterexample: when the final `remove_dir` fails, `pivot_root`
still returns success while the `.old_root` directory still exists, so a
successful setup does not guarantee that `/.old_root` is gone. -/
theorem pivot_root_leftover_counterexample :
    (pivot_root "/tmp/robojail-root"
        ⟨none, none, none, none, none, some Errno.EBUSY⟩).1 = .ok ()
    ∧ (pivot_root "/tmp/robojail-root"
        ⟨none, none, none, none, none, some Errno.EBUSY⟩).2.2.oldRootDirExists = true :=
  ⟨rfl, rfl⟩

/-- C9 (amended): a successful `pivot_root` performs exactly the sequence
chdir(new_root); mkdir(new_root/.old_root); pivot syscall; chdir(/);
umount(/.old_root, MNT_DETACH); remove_dir(/.old_root) — but the removal is
best-effort: its failure is ignored, and `/.old_root` is guaranteed absent
afterwards only when the removal succeeded. -/
theorem pivot_root_sequence (new_root : String) (env : PivotEnv)
    (h1 : env.chdirNewRes = none) (h2 : env.mkdirRes = none) (h3 : env.pivotRes = none)
    (h4 : env.chdirRootRes = none) (h5 : env.umountRes = none) :
    pivot_root new_root env =
      (.ok (),
        [.chdirCall new_root, .mkdirCall (new_root ++ "/.old_root"),
          .pivotCall new_root (new_root ++ "/.old_root"), .chdirCall "/",
          .umountCall "/.old_root" [MntFlag.DETACH], .rmdirCall "/.old_root"],
        ⟨env.rmdirRes.isSome⟩)
    ∧ (env.rmdirRes = none →
        (pivot_root new_root env).2.2.oldRootDirExists = false) := by
  constructor
  · simp [pivot_root, h1, h2, h3, h4, h5]
  · intro h6
    simp [pivot_root, h1, h2, h3, h4, h5, h6]

theorem pivot_root_sequence_witness :
    pivot_root "/tmp/robojail-root" ⟨none, none, none, none, none, none⟩ =
      (.ok (),
        [.chdirCall "/tmp/robojail-root", .mkdirCall "/tmp/robojail-root/.old_root",
          .pivotCall "/tmp/robojail-root" "/tmp/robojail-root/.old_root", .chdirCall "/",
          .umountCall "/.old_root" [MntFlag.DETACH], .rmdirCall "/.old_root"],
        ⟨false⟩)
    ∧ (pivot_root "/tmp/robojail-root"
        ⟨none, none, none, none, none, none⟩).2.2.oldRootDirExists = false :=
  ⟨(pivot_root_sequence "/tmp/robojail-root" ⟨none, none, none, none, none, none⟩
      rfl rfl rfl rfl rfl).1,
   (pivot_root_sequence "/tmp/robojail-root" ⟨none, none, none, none, none, none⟩
      rfl rfl rfl rfl rfl).2 rfl⟩

/-! ## Sandbox driver (`src/sandbox/mod.rs`): fork, wait, exit codes -/

/-- One result of `waitpid` as observed by `wait_for_child`. -/
inductive WaitRes where
  | exited (code : Int)
  | signaled (sig : Nat)
  | otherStatus
  | waitErr (e : Errno)
deriving DecidableEq, Repr

/-- `Sandbox::wait_for_child` (`src/sandbox/mod.rs` lines 158-171), driven
by the successive `waitpid` results; `none` when the list is exhausted
without a deciding status (the Rust loop would still be blocked). -/
def wait_for_child : List WaitRes → Option (Except Error Int)
  | [] => none
  | .exited c :: _ => some (.ok c)
  | .signaled s :: _ => some (.ok (128 + (s : Int)))
  | .otherStatus :: rest => wait_for_child rest
  | .waitErr .EINTR :: rest => wait_for_child rest
  | .waitErr e :: _ => some (.error (.Nix e))

/-- A `waitpid` result that the loop skips: a non-exit status, or EINTR. -/
def skippableWait (w : WaitRes) : Bool :=
  w == .otherStatus || w == .waitErr .EINTR

theorem wait_for_child_skips (skips rest : List WaitRes)
    (h : ∀ w ∈ skips, skippableWait w = true) :
    wait_for_child (skips ++ rest) = wait_for_child rest := by
  induction skips with
  | nil => rfl
  | cons w t ih =>
      have hw := h w (by simp)
      have ht := ih (fun x hx => h x (by simp [hx]))
      simp only [skippableWait, Bool.or_eq_true, beq_iff_eq] at hw
      rcases hw with rfl | rfl <;> simpa [wait_for_child] using ht

/-- The fork result as seen by the parent in `run_command`. -/
inductive ForkOutcome where
  | parentOf (waits : List WaitRes)
  | failed (e : Errno)
deriving DecidableEq, Repr

/-- `Sandbox::run_command` (`src/sandbox/mod.rs` lines 134-155), parent's
view: the empty-command check happens before the fork, then the parent
waits on the child. The trace records whether a fork was attempted. -/
def run_command (args : List String) (fo : ForkOutcome) :
    Option (Except Error Int) × List SysEvent :=
  if args.isEmpty then
    (some (.error (.SandboxSetup "no command specified")), [])
  else
    match fo with
    | .parentOf waits => (wait_for_child waits, [.forkCall])
    | .failed e => (some (.error (.Nix e)), [.forkCall])

/-- What the child process does after the fork in `run_command`: on a setup
error it prints a diagnostic on standard error and exits 126; otherwise it
has exec'd the command. -/
inductive ChildOutcome where
  | execed (argv : List String)
  | exitedEarly (code : Int) (stderrLine : String)
deriving DecidableEq, Repr

/-- The child branch of `run_command` (`src/sandbox/mod.rs` lines 145-152),
as a function of the `setup_and_exec` outcome. -/
def child_branch (args : List String) (setupRes : Except Error Unit) : ChildOutcome :=
  match setupRes with
  | .error e => .exitedEarly 126 ("sandbox setup failed: " ++ e.display)
  | .ok _ => .execed args

/-- C6: with a non-empty command and a successful fork, the parent returns
the child's own exit status on normal exit (skipping interrupted or
non-deciding waits), 128 plus the signal number when the child was killed
by a signal; a child whose setup fails prints a diagnostic to standard
error and exits 126, which the parent surfaces as exit code 126. -/
theorem run_command_exit_codes (args : List String) (skips : List WaitRes) (c : Int)
    (s : Nat) (er : Error) (hargs : args ≠ [])
    (hskips : ∀ w ∈ skips, skippableWait w = true) :
    run_command args (.parentOf (skips ++ [.exited c])) = (some (.ok c), [.forkCall])
    ∧ run_command args (.parentOf (skips ++ [.signaled s])) =
        (some (.ok (128 + (s : Int))), [.forkCall])
    ∧ child_branch args (.error er) =
        .exitedEarly 126 ("sandbox setup failed: " ++ er.display)
    ∧ run_command args (.parentOf [.exited 126]) = (some (.ok 126), [.forkCall]) := by
  have hne : args.isEmpty = false := by
    cases args with
    | nil => exact absurd rfl hargs
    | cons a t => rfl
  refine ⟨?_, ?_, rfl, ?_⟩
  · simp [run_command, hne, wait_for_child_skips skips _ hskips, wait_for_child]
  · simp [run_command, hne, wait_for_child_skips skips _ hskips, wait_for_child]
  · simp [run_command, hne, wait_for_child]

theorem run_command_exit_codes_witness :
    run_command ["/bin/sh"]
        (.parentOf ([.otherStatus, .waitErr Errno.EINTR] ++ [.exited 3])) =
      (some (.ok 3), [.forkCall])
    ∧ run_command ["/bin/sh"]
        (.parentOf ([.otherStatus, .waitErr Errno.EINTR] ++ [.signaled 9])) =
      (some (.ok (128 + (9 : Int))), [.forkCall])
    ∧ child_branch ["/bin/sh"] (.error Error.NamespacesUnavailable) =
        .exitedEarly 126 ("sandbox setup failed: " ++ Error.NamespacesUnavailable.display)
    ∧ run_command ["/bin/sh"] (.parentOf [.exited 126]) = (some (.ok 126), [.forkCall]) :=
  run_command_exit_codes ["/bin/sh"] [.otherStatus, .waitErr Errno.EINTR] 3 9
    Error.NamespacesUnavailable (by simp) (by decide)

/-- C10: running with an empty command list returns the sandbox-setup error
"no command specified" in the calling process, with an empty event trace:
no fork, and no namespace, mount, or registry operation is attempted. -/
theorem run_command_empty_args (fo : ForkOutcome) :
    run_command [] fo = (some (.error (.SandboxSetup "no command specified")), []) := rfl

/-! ## Sandbox builder, configuration and child environment
(`src/sandbox/mod.rs`, `src/config.rs`)

Process environments (`std::env`) are embedded as partial maps
`String → Option String`; host paths as `String`, compared component-wise
where the code uses `Path::starts_with`. -/

/-- A process environment: `std::env::var` view. -/
abbrev EnvMap : Type := String → Option String

/-- `std::env::set_var`. -/
def setVar (env : EnvMap) (k v : String) : EnvMap :=
  fun x => if x = k then some v else env x

/-- Setting a list of variables in order (later entries win). -/
def setVars (env : EnvMap) (pairs : List (String × String)) : EnvMap :=
  pairs.foldl (fun e p => setVar e p.1 p.2) env

/-- The environment after the clearing loop of `setup_and_exec` removed
every inherited variable. -/
def emptyEnv : EnvMap := fun _ => none

/-- The passthrough capture loop of `SandboxBuilder::with_config`
(`src/sandbox/mod.rs` lines 54-59): for each configured variable present in
the parent environment, record its parent value. -/
def passthroughPairs (parentEnv : EnvMap) (vars : List String) : List (String × String) :=
  vars.filterMap fun v => (parentEnv v).map fun value => (v, value)

/-- `Config` (`src/config.rs`). -/
structure Config where
  default_shell : String
  network_enabled : Bool
  extra_ro_binds : List String
  extra_rw_binds : List String
  hidden_paths : List String
  env_passthrough : List String
deriving DecidableEq, Repr

/-- `SandboxBuilder` (`src/sandbox/mod.rs` lines 14-27). -/
structure SandboxBuilder where
  root : String
  share_net : Bool
  ro_binds : List (String × String)
  rw_binds : List (String × String)
  env : List (String × String)
  workdir : String
deriving Repr

/-- `Sandbox` (`src/sandbox/mod.rs` lines 112-119). -/
structure Sandbox where
  root : String
  share_net : Bool
  ro_binds : List (String × String)
  rw_binds : List (String × String)
  env : List (String × String)
  workdir : String
deriving Repr

/-- `SandboxBuilder::new`. -/
def SandboxBuilder.new (root : String) : SandboxBuilder :=
  ⟨root, true, [], [], [], "/"⟩

/-- `SandboxBuilder::with_config`; the parent environment parameter stands
for the `std::env::var` reads the method performs. -/
def SandboxBuilder.with_config (b : SandboxBuilder) (config : Config)
    (parentEnv : EnvMap) : SandboxBuilder :=
  { b with
    share_net := config.network_enabled
    ro_binds := b.ro_binds ++ config.extra_ro_binds.map (fun p => (p, p))
    rw_binds := b.rw_binds ++ config.extra_rw_binds.map (fun p => (p, p))
    env := b.env ++ passthroughPairs parentEnv config.env_passthrough }

/-- `SandboxBuilder::env`. -/
def SandboxBuilder.withEnv (b : SandboxBuilder) (k v : String) : SandboxBuilder :=
  { b with env := b.env ++ [(k, v)] }

/-- `SandboxBuilder::ro_bind`. -/
def SandboxBuilder.ro_bind (b : SandboxBuilder) (src dst : String) : SandboxBuilder :=
  { b with ro_binds := b.ro_binds ++ [(src, dst)] }

/-- `SandboxBuilder::workdir`. -/
def SandboxBuilder.withWorkdir (b : SandboxBuilder) (dir : String) : SandboxBuilder :=
  { b with workdir := dir }

/-- `SandboxBuilder::build`. -/
def SandboxBuilder.build (b : SandboxBuilder) : Sandbox :=
  ⟨b.root, b.share_net, b.ro_binds, b.rw_binds, b.env, b.workdir⟩

/-- Splitting a character list at slashes (empty pieces kept). -/
def splitOnSlash : List Char → List (List Char)
  | [] => [[]]
  | c :: rest =>
      if c = '/' then [] :: splitOnSlash rest
      else
        match splitOnSlash rest with
        | [] => [[c]]
        | h :: t => (c :: h) :: t

/-- The non-empty components of a path, as `Path::components` yields them
(duplicate and leading separators ignored). -/
def components (p : String) : List (List Char) :=
  (splitOnSlash p.toList).filter (fun l => !l.isEmpty)

/-- `Path::starts_with`: component-wise path containment. -/
def path_starts_with (p base : String) : Bool :=
  (components base).isPrefixOf (components p)

/-- The system-path test of `create_jail_sandbox`
(`src/sandbox/mod.rs` lines 377-380). -/
def in_system_path (p : String) : Bool :=
  path_starts_with p "/usr" || path_starts_with p "/bin" ||
    path_starts_with p "/sbin" || path_starts_with p "/lib"

/-- `create_jail_sandbox` (`src/sandbox/mod.rs` lines 364-390). -/
def create_jail_sandbox (worktree_path : String) (config : Config)
    (entrypoint : Option (List String)) (parentEnv : EnvMap) : Sandbox :=
  let builder := ((((SandboxBuilder.new worktree_path).with_config config
    parentEnv).withEnv "HOME" "/home/user").withEnv "USER" "user").withWorkdir "/"
  let builder :=
    match entrypoint with
    | some ep =>
        match ep with
        | cmd :: _ => if in_system_path cmd then builder else builder.ro_bind cmd cmd
        | [] => builder
    | none => builder
  builder.build

/-- The fixed environment seeded by `setup_and_exec` after clearing
(`src/sandbox/mod.rs` lines 196-200). -/
def requiredEnv : List (String × String) :=
  [("HOME", "/home/user"), ("USER", "user"),
   ("PATH", "/usr/local/bin:/usr/bin:/bin:/usr/local/sbin:/usr/sbin:/sbin"),
   ("ROBOJAIL", "1")]

/-- The environment in effect at the moment of exec in `setup_and_exec`:
everything inherited is cleared, the fixed variables are seeded, then the
sandbox's configured variables are applied. -/
def env_at_exec (sandboxEnv : List (String × String)) : EnvMap :=
  setVars (setVars emptyEnv requiredEnv) sandboxEnv

theorem create_jail_sandbox_env (wt : String) (cfg : Config)
    (ep : Option (List String)) (pe : EnvMap) :
    (create_jail_sandbox wt cfg ep pe).env =
      passthroughPairs pe cfg.env_passthrough ++
        [("HOME", "/home/user"), ("USER", "user")] := by
  unfold create_jail_sandbox
  cases ep with
  | none =>
      simp [SandboxBuilder.new, SandboxBuilder.with_config, SandboxBuilder.withEnv,
        SandboxBuilder.withWorkdir, SandboxBuilder.build, SandboxBuilder.ro_bind]
  | some l =>
      cases l with
      | nil =>
          simp [SandboxBuilder.new, SandboxBuilder.with_config, SandboxBuilder.withEnv,
            SandboxBuilder.withWorkdir, SandboxBuilder.build, SandboxBuilder.ro_bind]
      | cons cmd rest =>
          cases h : in_system_path cmd <;>
            simp [h, SandboxBuilder.new, SandboxBuilder.with_config, SandboxBuilder.withEnv,
              SandboxBuilder.withWorkdir, SandboxBuilder.build, SandboxBuilder.ro_bind]

/-- C7: the sandbox created for a jail adds a read-only bind of the
entrypoint's first element at the identical path (source = target) exactly
when that path lies outside the component-wise path containment of /usr,
/bin, /sbin and /lib; under one of those, no extra bind is added. In
particular /opt/tools/claude is bound and /usr/bin/python is not. -/
theorem entrypoint_bind_iff_outside_system (wt : String) (cfg : Config)
    (cmd : String) (rest : List String) (pe : EnvMap) :
    ((create_jail_sandbox wt cfg (some (cmd :: rest)) pe).ro_binds =
      cfg.extra_ro_binds.map (fun p => (p, p)) ++
        (if in_system_path cmd then [] else [(cmd, cmd)]))
    ∧ ((create_jail_sandbox wt cfg none pe).ro_binds =
        cfg.extra_ro_binds.map (fun p => (p, p)))
    ∧ in_system_path "/opt/tools/claude" = false
    ∧ in_system_path "/usr/bin/python" = true := by
  refine ⟨?_, ?_, by decide, by decide⟩
  · unfold create_jail_sandbox
    cases h : in_system_path cmd <;>
      simp [h, SandboxBuilder.new, SandboxBuilder.with_config, SandboxBuilder.withEnv,
        SandboxBuilder.withWorkdir, SandboxBuilder.build, SandboxBuilder.ro_bind]
  · unfold create_jail_sandbox
    simp [SandboxBuilder.new, SandboxBuilder.with_config, SandboxBuilder.withEnv,
      SandboxBuilder.withWorkdir, SandboxBuilder.build, SandboxBuilder.ro_bind]

theorem setVars_isSome (pairs : List (String × String)) (env : EnvMap) (k : String) :
    (setVars env pairs k).isSome = true ↔
      (∃ p ∈ pairs, p.1 = k) ∨ (env k).isSome = true := by
  induction pairs generalizing env with
  | nil => simp [setVars]
  | cons a t ih =>
      have step : setVars env (a :: t) = setVars (setVar env a.1 a.2) t := rfl
      rw [step, ih]
      by_cases hk : k = a.1
      · subst hk
        simp [setVar]
      · constructor
        · rintro (h | h)
          · exact Or.inl ⟨_, by simp [h.choose_spec.1], h.choose_spec.2⟩
          · simp only [setVar, if_neg hk] at h
            exact Or.inr h
        · rintro (⟨p, hp, hpk⟩ | h)
          · rcases List.mem_cons.1 hp with rfl | hp
            · exact absurd hpk.symm hk
            · exact Or.inl ⟨p, hp, hpk⟩
          · exact Or.inr (by simp [setVar, if_neg hk, h])

theorem passthroughPairs_key (pe : EnvMap) (vars : List String) (k : String) :
    (∃ q ∈ passthroughPairs pe vars, q.1 = k) ↔
      (k ∈ vars ∧ (pe k).isSome = true) := by
  simp only [passthroughPairs, List.mem_filterMap, Option.map_eq_some']
  constructor
  · rintro ⟨q, ⟨v, hv, val, hval, hq⟩, hk⟩
    subst hq
    simp only at hk
    subst hk
    exact ⟨hv, by simp [hval]⟩
  · rintro ⟨hk, hsome⟩
    rcases Option.isSome_iff_exists.1 hsome with ⟨val, hval⟩
    exact ⟨(k, val), ⟨k, hk, val, hval, rfl⟩, rfl⟩

theorem passthroughPairs_congr (p1 p2 : EnvMap) (vars : List String)
    (h : ∀ v ∈ vars, p1 v = p2 v) :
    passthroughPairs p1 vars = passthroughPairs p2 vars := by
  induction vars with
  | nil => rfl
  | cons v t ih =>
      simp only [passthroughPairs, List.filterMap_cons] at ih ⊢
      rw [h v (by simp), ih (fun x hx => h x (by simp [hx]))]

/-- C2: at the moment of exec the child environment contains exactly the
keys HOME, USER, PATH, ROBOJAIL plus the configured passthrough keys that
were set in the parent; and two runs whose parent environments agree on the
passthrough keys (differing arbitrarily elsewhere) produce the identical
child environment. -/
theorem child_env_exactly_allowed_keys (wt : String) (cfg : Config)
    (ep : Option (List String)) (p1 p2 : EnvMap) (k : String) :
    ((env_at_exec (create_jail_sandbox wt cfg ep p1).env k).isSome = true ↔
      (k = "HOME" ∨ k = "USER" ∨ k = "PATH" ∨ k = "ROBOJAIL" ∨
        (k ∈ cfg.env_passthrough ∧ (p1 k).isSome = true)))
    ∧ ((∀ v ∈ cfg.env_passthrough, p1 v = p2 v) →
        env_at_exec (create_jail_sandbox wt cfg ep p1).env =
          env_at_exec (create_jail_sandbox wt cfg ep p2).env) := by
  constructor
  · rw [create_jail_sandbox_env, env_at_exec, setVars_isSome, setVars_isSome]
    have hbase : ((emptyEnv k).isSome = true) ↔ False := by simp [emptyEnv]
    constructor
    · rintro (⟨p, hp, hpk⟩ | hreq)
      · rcases List.mem_append.1 hp with hp | hp
        · exact Or.inr (Or.inr (Or.inr (Or.inr
            ((passthroughPairs_key p1 cfg.env_passthrough k).1 ⟨p, hp, hpk⟩))))
        · subst hpk
          simp only [List.mem_cons, List.not_mem_nil, or_false] at hp
          rcases hp with rfl | rfl <;> simp
      · rcases hreq with ⟨p, hp, hpk⟩ | hempty
        · subst hpk
          simp only [requiredEnv, List.mem_cons, List.not_mem_nil, or_false] at hp
          rcases hp with rfl | rfl | rfl | rfl <;> simp
        · exact absurd hempty (by simp [emptyEnv])
    · rintro (rfl | rfl | rfl | rfl | hpass)
      · exact Or.inr (Or.inl ⟨("HOME", "/home/user"), by simp [requiredEnv], rfl⟩)
      · exact Or.inr (Or.inl ⟨("USER", "user"), by simp [requiredEnv], rfl⟩)
      · exact Or.inr (Or.inl ⟨("PATH",
          "/usr/local/bin:/usr/bin:/bin:/usr/local/sbin:/usr/sbin:/sbin"),
          by simp [requiredEnv], rfl⟩)
      · exact Or.inr (Or.inl ⟨("ROBOJAIL", "1"), by simp [requiredEnv], rfl⟩)
      · rcases (passthroughPairs_key p1 cfg.env_passthrough k).2 hpass with ⟨q, hq, hqk⟩
        exact Or.inl ⟨q, List.mem_append.2 (Or.inl hq), hqk⟩
  · intro hagree
    rw [create_jail_sandbox_env, create_jail_sandbox_env,
      passthroughPairs_congr p1 p2 cfg.env_passthrough hagree]

/-- A concrete configuration with a single passthrough variable TERM. -/
def witnessCfg : Config := ⟨"/bin/bash", true, [], [], [], ["TERM"]⟩

/-- A parent environment carrying TERM and a secret. -/
def witnessParent1 : EnvMap :=
  fun s => if s = "TERM" then some "xterm" else if s = "SECRET" then some "xyz" else none

/-- The same parent environment without the secret. -/
def witnessParent2 : EnvMap :=
  fun s => if s = "TERM" then some "xterm" else none

theorem child_env_exactly_allowed_keys_witness :
    ((env_at_exec (create_jail_sandbox "/wt" witnessCfg none witnessParent1).env
        "SECRET").isSome = true ↔
      ("SECRET" = "HOME" ∨ "SECRET" = "USER" ∨ "SECRET" = "PATH" ∨ "SECRET" = "ROBOJAIL" ∨
        ("SECRET" ∈ witnessCfg.env_passthrough ∧ (witnessParent1 "SECRET").isSome = true)))
    ∧ env_at_exec (create_jail_sandbox "/wt" witnessCfg none witnessParent1).env =
        env_at_exec (create_jail_sandbox "/wt" witnessCfg none witnessParent2).env :=
  ⟨(child_env_exactly_allowed_keys "/wt" witnessCfg none witnessParent1 witnessParent2
      "SECRET").1,
   (child_env_exactly_allowed_keys "/wt" witnessCfg none witnessParent1 witnessParent2
      "SECRET").2 (by
        intro v hv
        simp only [witnessCfg, List.mem_cons, List.not_mem_nil, or_false] at hv
        subst hv
        rfl)⟩

/-! ## Registry record serialization (`src/state.rs`)

`serde_json` values are embedded as a JSON tree; `Uuid`, `PathBuf` and
`DateTime<Utc>` all serialize as JSON strings and are embedded by their
string form. -/

/-- A JSON value. -/
inductive Json where
  | null
  | boolVal (b : Bool)
  | num (n : Int)
  | str (s : String)
  | arr (elems : List Json)
  | obj (fields : List (String × Json))
deriving Repr

/-- `JailInfo` (`src/state.rs` lines 10-23). -/
structure JailInfo where
  id : String
  name : String
  repo_path : String
  worktree_path : String
  branch_name : String
  created_at : String
  pid : Option Nat
  entrypoint : Option (List String)
deriving DecidableEq, Repr

/-- First-match field lookup in a JSON object body. -/
def lookupField (k : String) : List (String × Json) → Option Json
  | [] => none
  | (k2, v) :: rest => if k2 = k then some v else lookupField k rest

/-- Field access on a JSON value. -/
def Json.getField (j : Json) (k : String) : Option Json :=
  match j with
  | .obj fields => lookupField k fields
  | _ => none

/-- The keys of a JSON object, in order. -/
def Json.objKeys (j : Json) : List String :=
  match j with
  | .obj fields => fields.map Prod.fst
  | _ => []

/-- Expect a JSON string. -/
def Json.asStr : Json → Option String
  | .str s => some s
  | _ => none

/-- Expect a JSON number holding a nonnegative integer (`u32` field). -/
def Json.asNat : Json → Option Nat
  | .num n => if n < 0 then none else some n.toNat
  | _ => none

/-- Elementwise string extraction from a JSON array body. -/
def strListOf : List Json → Option (List String)
  | [] => some []
  | j :: rest =>
      match Json.asStr j with
      | some s => (strListOf rest).map (fun t => s :: t)
      | none => none

/-- Expect a JSON array of strings. -/
def Json.asStrList : Json → Option (List String)
  | .arr l => strListOf l
  | _ => none

/-- serde serialization of `JailInfo`: `pid` and `entrypoint` carry
`skip_serializing_if = Option::is_none`, so a `None` value contributes no
key at all. -/
def JailInfo.toJson (r : JailInfo) : Json :=
  .obj ([("id", .str r.id), ("name", .str r.name), ("repo_path", .str r.repo_path),
      ("worktree_path", .str r.worktree_path), ("branch_name", .str r.branch_name),
      ("created_at", .str r.created_at)]
    ++ (match r.pid with
        | some p => [("pid", .num (Int.ofNat p))]
        | none => [])
    ++ (match r.entrypoint with
        | some ep => [("entrypoint", .arr (ep.map Json.str))]
        | none => []))

/-- serde deserialization of `JailInfo`: required fields must be present
with the right type; a missing `pid` or `entrypoint` key yields `None`. -/
def JailInfo.fromJson (j : Json) : Option JailInfo := do
  let id ← (j.getField "id").bind Json.asStr
  let name ← (j.getField "name").bind Json.asStr
  let repo_path ← (j.getField "repo_path").bind Json.asStr
  let worktree_path ← (j.getField "worktree_path").bind Json.asStr
  let branch_name ← (j.getField "branch_name").bind Json.asStr
  let created_at ← (j.getField "created_at").bind Json.asStr
  let pid ←
    match j.getField "pid" with
    | none => some none
    | some v => (Json.asNat v).map some
  let entrypoint ←
    match j.getField "entrypoint" with
    | none => some none
    | some v => (Json.asStrList v).map some
  some ⟨id, name, repo_path, worktree_path, branch_name, created_at, pid, entrypoint⟩

theorem strListOf_map_roundtrip (l : List String) :
    strListOf (l.map Json.str) = some l := by
  induction l with
  | nil => rfl
  | cons a t ih => simp [strListOf, ih, Json.asStr]

theorem asNat_ofNat (p : Nat) : Json.asNat (.num (p : Int)) = some p := by
  show (if ((p : Int)) < 0 then none else some ((p : Int)).toNat) = some p
  rw [if_neg (by omega)]
  simp

/-- C8: serializing a jail record to JSON and deserializing yields the
original record in every field, including the optional `pid` and
`entrypoint`; and when `pid` or `entrypoint` is absent the serialized
object contains no key for it. -/
theorem jail_record_json_roundtrip (r : JailInfo) :
    JailInfo.fromJson (JailInfo.toJson r) = some r
    ∧ (JailInfo.toJson r).objKeys =
        ["id", "name", "repo_path", "worktree_path", "branch_name", "created_at"] ++
          (match r.pid with | some _ => ["pid"] | none => []) ++
          (match r.entrypoint with | some _ => ["entrypoint"] | none => []) := by
  obtain ⟨id, name, repo_path, worktree_path, branch_name, created_at, pid, ep⟩ := r
  cases pid <;> cases ep <;>
    constructor <;>
      simp [JailInfo.toJson, JailInfo.fromJson, Json.getField, lookupField, Json.objKeys,
        Json.asStr, asNat_ofNat, Json.asStrList, strListOf_map_roundtrip]
